import Mathlib

/-!
Shallow embedding of the portrait-generation pipeline of the
portrait-banana repository: the in-memory rate limiter
(`lib/rate-limit.ts`), the AI response processor
(`lib/ai-response-handler.ts`), the watermark compositor
(`lib/watermark.ts`), the prompt-context validator
(`lib/prompt-builder.ts`), the AI utilities (`lib/ai-utils.ts`) and the
preview-generation route handler (`app/api/generate-preview/route.ts`).

External effects (the Gemini provider, the sharp image library, Node
base64 buffers, wall-clock time) are modelled as explicit oracle
parameters; everything the repository itself computes is translated
directly from the TypeScript source, including JavaScript truthiness
on strings and numbers where the source relies on it.
-/

namespace Portrait

/-! ## JavaScript-semantics helpers -/

/-- Truthiness of a JavaScript string: falsy iff empty. -/
def jsTruthy (s : String) : Bool := !s.isEmpty

/-- Truthiness of an optional string field: absent and empty are falsy. -/
def jsSomeS (o : Option String) : Bool :=
  match o with
  | some s => !s.isEmpty
  | none => false

/-- JavaScript `a || b` on an optional string: falls back on absent or empty. -/
def jsOrS (o : Option String) (d : String) : String :=
  match o with
  | some s => if s.isEmpty then d else s
  | none => d

/-- JavaScript `a || b` on an optional number: falls back on absent or zero. -/
def jsOrNat (o : Option Nat) (d : Nat) : Nat :=
  match o with
  | some n => if n = 0 then d else n
  | none => d

/-- JavaScript number truthiness on an optional field: `some 0` is falsy. -/
def jsPosNat (o : Option Nat) : Option Nat :=
  match o with
  | some 0 => none
  | x => x

/-- Substring occurrence test over character lists (structural recursion,
so concrete instances evaluate inside the kernel). -/
def listContainsSublist : List Char → List Char → Bool
  | _, [] => true
  | [], _ :: _ => false
  | c :: rest, n :: ns => List.isPrefixOf (n :: ns) (c :: rest) ||
      listContainsSublist rest (n :: ns)

/-- JavaScript `String.prototype.includes`. -/
def jsIncludes (h n : String) : Bool := listContainsSublist h.data n.data

/-- `String.startsWith`, over character lists. -/
def strStartsWith (s p : String) : Bool := List.isPrefixOf p.data s.data

/-- `String.drop`, over character lists. -/
def strDrop (s : String) (n : Nat) : String := ⟨s.data.drop n⟩

def charIsLowerAZ (c : Char) : Bool := decide ('a' ≤ c) && decide (c ≤ 'z')

/-- `takeWhile` of lowercase letters, over character lists. -/
def strTakeWhileLower (s : String) : String := ⟨s.data.takeWhile charIsLowerAZ⟩

/-- JavaScript `Math.ceil(d / 1000)` for an integer `d`
(used for the rate limiter's `retryAfter`). -/
def jsCeilDiv1000 (d : Int) : Int :=
  if d ≤ 0 then -(((-d).toNat / 1000 : Nat) : Int) else (((d.toNat + 999) / 1000 : Nat) : Int)

/-- JavaScript `Math.round(s / 1024 / 1024)` for a byte count `s`
(half-up rounding to whole megabytes). -/
def jsRoundMB (s : Nat) : Nat := (2 * s + 1048576) / 2097152

/-! ## Shared enumerations (`types/index.ts`, `lib/ai-response-handler.ts`) -/

inductive SizeClass where
  | preview
  | full
deriving Repr, DecidableEq

inductive Quality where
  | high
  | medium
  | low
deriving Repr, DecidableEq

structure Dimensions where
  width : Nat
  height : Nat
deriving Repr, DecidableEq

/-! ## Rate limiter (`lib/rate-limit.ts`)

`checkRateLimit` is modelled per client identity: the store argument is
the entry held for that identity (the `Map` lookup), and the returned
store is what the map holds for it afterwards.  The lazy sweep
(`cleanupExpiredEntries`) only ever deletes entries whose `resetTime`
is strictly in the past; the entry written in the allowed branch has
`resetTime ≥ now`, so the sweep never removes it and is the identity on
the modelled entry. -/

structure RateLimitEntry where
  count : Nat
  resetTime : Nat
  lastRequest : Nat
deriving Repr, DecidableEq

structure RateLimitResult where
  allowed : Bool
  remaining : Int
  resetTime : Nat
  retryAfter : Option Int
deriving Repr, DecidableEq

/-- Production constants from `lib/constants.ts` (`RATE_LIMIT_CONFIG`). -/
def RATE_LIMIT_MAX_ATTEMPTS_PER_IP : Nat := 3

def RATE_LIMIT_WINDOW_MS : Nat := 24 * 60 * 60 * 1000

/-- The entry `checkRateLimit` works on: the stored one, unless it is
missing or expired, in which case a fresh zero-count window starting now. -/
def effectiveEntry (windowMs : Nat) (store : Option RateLimitEntry) (now : Nat) :
    RateLimitEntry :=
  match store with
  | some e => if e.resetTime < now then ⟨0, now + windowMs, now⟩ else e
  | none => ⟨0, now + windowMs, now⟩

/-- `RateLimitService.checkRateLimit`: deny once the count has reached the
ceiling (leaving the store untouched), otherwise increment and store. -/
def checkRateLimit (maxAttempts windowMs : Nat) (store : Option RateLimitEntry)
    (now : Nat) : RateLimitResult × Option RateLimitEntry :=
  let entry := effectiveEntry windowMs store now
  if maxAttempts ≤ entry.count then
    ({ allowed := false, remaining := 0, resetTime := entry.resetTime,
       retryAfter := some (jsCeilDiv1000 ((entry.resetTime : Int) - (now : Int))) },
     store)
  else
    ({ allowed := true, remaining := (maxAttempts : Int) - ((entry.count + 1 : Nat) : Int),
       resetTime := entry.resetTime, retryAfter := none },
     some ⟨entry.count + 1, entry.resetTime, now⟩)

/-- The per-identity store after `k` admission checks, the `i`-th issued at
time `t i`, starting from no entry. -/
def rlState (maxAttempts windowMs : Nat) (t : Nat → Nat) : Nat → Option RateLimitEntry
  | 0 => none
  | k + 1 => (checkRateLimit maxAttempts windowMs (rlState maxAttempts windowMs t k) (t k)).2

/-- The result of the `(k+1)`-th admission check in the trace `t`. -/
def rlResult (maxAttempts windowMs : Nat) (t : Nat → Nat) (k : Nat) : RateLimitResult :=
  (checkRateLimit maxAttempts windowMs (rlState maxAttempts windowMs t k) (t k)).1

lemma jsCeilDiv1000_pos (d : Int) (h : 0 < d) : 0 < jsCeilDiv1000 d := by
  unfold jsCeilDiv1000
  rw [if_neg (by omega)]
  have h1 : 1 ≤ d.toNat := by omega
  have h2 : 1 ≤ (d.toNat + 999) / 1000 := by omega
  omega

lemma checkRateLimit_fresh (N W now : Nat) (hN : 1 ≤ N) :
    checkRateLimit N W none now =
      ({ allowed := true, remaining := (N : Int) - 1, resetTime := now + W,
         retryAfter := none }, some ⟨1, now + W, now⟩) := by
  have h2 : ¬ N ≤ 0 := by omega
  simp [checkRateLimit, effectiveEntry, h2]

lemma checkRateLimit_active (N W now : Nat) (e : RateLimitEntry)
    (hlive : now ≤ e.resetTime) (hroom : e.count < N) :
    checkRateLimit N W (some e) now =
      ({ allowed := true, remaining := (N : Int) - ((e.count + 1 : Nat) : Int),
         resetTime := e.resetTime, retryAfter := none },
       some ⟨e.count + 1, e.resetTime, now⟩) := by
  have h1 : ¬ e.resetTime < now := by omega
  have h2 : ¬ N ≤ e.count := by omega
  simp [checkRateLimit, effectiveEntry, h1, h2]

lemma checkRateLimit_deny (N W now : Nat) (e : RateLimitEntry)
    (hlive : now ≤ e.resetTime) (hfull : N ≤ e.count) :
    checkRateLimit N W (some e) now =
      ({ allowed := false, remaining := 0, resetTime := e.resetTime,
         retryAfter := some (jsCeilDiv1000 ((e.resetTime : Int) - (now : Int))) },
       some e) := by
  have h1 : ¬ e.resetTime < now := by omega
  simp [checkRateLimit, effectiveEntry, h1, hfull]

lemma checkRateLimit_expired (N W now : Nat) (e : RateLimitEntry)
    (hexp : e.resetTime < now) (hN : 1 ≤ N) :
    checkRateLimit N W (some e) now =
      ({ allowed := true, remaining := (N : Int) - 1, resetTime := now + W,
         retryAfter := none }, some ⟨1, now + W, now⟩) := by
  have h2 : ¬ N ≤ 0 := by omega
  simp [checkRateLimit, effectiveEntry, hexp, h2]

lemma checkRateLimit_count_le (N W now : Nat) (store : Option RateLimitEntry)
    (res : RateLimitResult) (st : Option RateLimitEntry)
    (h : checkRateLimit N W store now = (res, st)) (ha : res.allowed = true) :
    ∀ e, st = some e → e.count ≤ N := by
  unfold checkRateLimit at h
  by_cases hc : N ≤ (effectiveEntry W store now).count
  · rw [if_pos hc] at h
    cases h
    simp at ha
  · rw [if_neg hc] at h
    cases h
    intro e he
    cases he
    simp
    omega

/-- Closed form for the per-identity store along a trace whose first `N`
calls all happen no later than `t 0 + W` (inside the first window). -/
lemma rlState_closed (N W : Nat) (t : Nat → Nat)
    (hin : ∀ i, i ≤ N → t i ≤ t 0 + W) :
    ∀ k, k ≤ N → rlState N W t k =
      if k = 0 then none else some ⟨k, t 0 + W, t (k - 1)⟩ := by
  intro k
  induction k with
  | zero => intro _; rfl
  | succ n ih =>
    intro hk
    have hn : n ≤ N := Nat.le_of_succ_le hk
    have hs := ih hn
    cases n with
    | zero =>
      have hN : 1 ≤ N := hk
      simp only [rlState, hs, if_pos rfl]
      rw [checkRateLimit_fresh N W (t 0) hN]
      simp
    | succ m =>
      have hm : m + 1 ≤ N := hn
      have hstep : rlState N W t (m + 1 + 1) =
          (checkRateLimit N W (rlState N W t (m + 1)) (t (m + 1))).2 := rfl
      rw [hstep, hs, if_neg (by omega),
        checkRateLimit_active N W (t (m + 1)) ⟨m + 1, t 0 + W, t (m + 1 - 1)⟩
          (by simpa using hin (m + 1) hm) (by simpa using hk),
        if_neg (by omega)]
      simp

/-- C3.  Behaviour of `RateLimitService.checkRateLimit` for one client
identity with ceiling `N` and window `W`, along a trace of calls at times
`t 0, t 1, …` that stay inside the first window: the first `N` calls are
allowed with `remaining` decreasing from `N - 1` to `0`; the `(N+1)`-th
call (strictly before the reset time) is denied with positive
`retryAfter`; whenever a call is allowed the stored count is at most `N`;
and a call after the reset time replaces the entry with a fresh window,
allowed with `remaining = N - 1`. -/
theorem checkRateLimit_window_behavior (N W : Nat) (t : Nat → Nat) (tr : Nat)
    (hN : 1 ≤ N)
    (hin : ∀ i, i ≤ N → t i ≤ t 0 + W)
    (hlast : t N < t 0 + W)
    (hreset : t 0 + W < tr) :
    (∀ k, k < N → (rlResult N W t k).allowed = true ∧
        (rlResult N W t k).remaining = (N : Int) - 1 - (k : Int)) ∧
    (rlResult N W t N).allowed = false ∧
    (∃ r, (rlResult N W t N).retryAfter = some r ∧ 0 < r) ∧
    (∀ store now res st, checkRateLimit N W store now = (res, st) →
        res.allowed = true → ∀ e, st = some e → e.count ≤ N) ∧
    ((checkRateLimit N W (rlState N W t (N + 1)) tr).1.allowed = true ∧
     (checkRateLimit N W (rlState N W t (N + 1)) tr).1.remaining = (N : Int) - 1 ∧
     (checkRateLimit N W (rlState N W t (N + 1)) tr).2 = some ⟨1, tr + W, tr⟩) := by
  have hden : rlResult N W t N =
      { allowed := false, remaining := 0, resetTime := t 0 + W,
        retryAfter := some (jsCeilDiv1000 (((t 0 + W : Nat) : Int) - (t N : Int))) } ∧
      rlState N W t (N + 1) = some ⟨N, t 0 + W, t (N - 1)⟩ := by
    have hs := rlState_closed N W t hin N (le_refl N)
    rw [if_neg (by omega)] at hs
    have hd := checkRateLimit_deny N W (t N) ⟨N, t 0 + W, t (N - 1)⟩
      (by simpa using hin N (le_refl N)) (by simp)
    constructor
    · unfold rlResult
      rw [hs, hd]
    · show (checkRateLimit N W (rlState N W t N) (t N)).2 = _
      rw [hs, hd]
  refine ⟨?_, ?_, ?_, ?_, ?_⟩
  · intro k hk
    have hs := rlState_closed N W t hin k (Nat.le_of_lt hk)
    unfold rlResult
    cases k with
    | zero =>
      rw [hs, if_pos rfl, checkRateLimit_fresh N W (t 0) hN]
      constructor
      · rfl
      · simp
    | succ m =>
      rw [hs, if_neg (by omega),
        checkRateLimit_active N W (t (m + 1)) ⟨m + 1, t 0 + W, t (m + 1 - 1)⟩
          (by simpa using hin (m + 1) (by omega)) (by simpa using hk)]
      constructor
      · rfl
      · simp
        ring
  · rw [hden.1]
  · rw [hden.1]
    refine ⟨_, rfl, ?_⟩
    apply jsCeilDiv1000_pos
    omega
  · exact fun store now res st h ha => checkRateLimit_count_le N W now store res st h ha
  · rw [hden.2, checkRateLimit_expired N W tr ⟨N, t 0 + W, t (N - 1)⟩ (by simpa using hreset) hN]
    exact ⟨rfl, rfl, rfl⟩

/-- Witness for C3 at `N = 3`, `W = 1000`, calls at times `0, 1, 2, 3` and a
post-reset call at time `2000`. -/
theorem checkRateLimit_window_behavior_witness :
    (rlResult 3 1000 (fun i => i) 0).allowed = true ∧
    (rlResult 3 1000 (fun i => i) 2).remaining = 0 ∧
    (rlResult 3 1000 (fun i => i) 3).allowed = false ∧
    (checkRateLimit 3 1000 (rlState 3 1000 (fun i => i) 4) 2000).1.allowed = true := by
  have h := checkRateLimit_window_behavior 3 1000 (fun i => i) 2000
    (by omega)
    (by intro i hi; show i ≤ 0 + 1000; omega)
    (by show 3 < 0 + 1000; omega)
    (by show 0 + 1000 < 2000; omega)
  exact ⟨(h.1 0 (by omega)).1, by
      have h2 := (h.1 2 (by omega)).2
      rw [h2]; norm_num,
    h.2.1, h.2.2.2.2.1⟩

/-! ## Generation constants (`lib/constants.ts`, `GENERATION_CONFIG`) -/

def PREVIEW_SIZE : Nat := 512

def FULL_SIZE : Nat := 2048

def PREVIEW_COST : Rat := 39 / 1000

def FULL_COST : Rat := 39 / 1000

/-! ## AI service response and metrics (`lib/ai-service.ts`, `lib/ai-utils.ts`) -/

structure GenerationResponse where
  success : Bool
  imageUrl : Option String := none
  imageData : Option String := none
  error : Option String := none
  cost : Option Rat := none
  generationTime : Option Nat := none
deriving Repr, DecidableEq

structure AIGenerationMetrics where
  startTime : Nat
  endTime : Nat
  duration : Nat
  cost : Rat
  model : String
  size : SizeClass
deriving Repr, DecidableEq

/-- `MetricsUtils.createMetrics`. -/
def createMetrics (startTime endTime : Nat) (model : String) (size : SizeClass) :
    AIGenerationMetrics :=
  { startTime := startTime, endTime := endTime, duration := endTime - startTime,
    cost := match size with | .preview => PREVIEW_COST | .full => FULL_COST,
    model := model, size := size }

/-! ## Response processor (`lib/ai-response-handler.ts`)

The Node/browser runtime facilities the handler leans on (base64
round-trip validity, decoded byte length, the presence of a `window`
object, browser-side image decoding, the clock) are an explicit
environment record.  `base64ToBlob` is always invoked with its default
`image/jpeg` mime type in the source, so the blob type checked against
`allowedFormats` is the constant `"image/jpeg"`. -/

structure JsEnv where
  validB64 : String → Bool
  b64ByteLength : String → Nat
  windowDefined : Bool
  browserDims : String → Option Dimensions
  now : Nat

structure ValidationOptionsPartial where
  minWidth : Option Nat := none
  minHeight : Option Nat := none
  maxFileSize : Option Nat := none
  allowedFormats : Option (List String) := none
  qualityThreshold : Option Rat := none
deriving Repr, DecidableEq

/-- The spread `{ ...DEFAULT_VALIDATION, ...validationOptions }`. -/
def mergeValidation (p : ValidationOptionsPartial) : ValidationOptionsPartial :=
  { minWidth := some (p.minWidth.getD 512),
    minHeight := some (p.minHeight.getD 512),
    maxFileSize := some (p.maxFileSize.getD (10 * 1024 * 1024)),
    allowedFormats := some (p.allowedFormats.getD ["image/jpeg", "image/png", "image/webp"]),
    qualityThreshold := some (p.qualityThreshold.getD (8 / 10)) }

structure MetadataParts where
  model : String
  generationTime : Nat
  cost : Rat
  size : SizeClass
  dimensions : Option Dimensions
  format : String
  timestamp : Nat
deriving Repr, DecidableEq

structure ResponseMetadata where
  model : String
  generationTime : Nat
  cost : Rat
  size : SizeClass
  quality : Quality
  dimensions : Option Dimensions
  format : String
  timestamp : Nat
deriving Repr, DecidableEq

structure ProcessedResponse where
  success : Bool
  imageData : Option String := none
  metadata : Option ResponseMetadata := none
  error : Option String := none
  warnings : Option (List String) := none
deriving Repr, DecidableEq

structure ImgCheck where
  isValid : Bool
  errors : List String
  warnings : List String
  dimensions : Option Dimensions
deriving Repr, DecidableEq

/-- `AIResponseHandler.getImageDimensions`: the server side (no `window`)
returns `null`; the browser side decodes via an `Image` element. -/
def getImageDimensions (env : JsEnv) (imageData : String) : Option Dimensions :=
  if env.windowDefined then env.browserDims imageData else none

/-- `AIResponseHandler.validateImageData`.  The aspect-ratio arithmetic is
carried out in `ℚ` in place of JavaScript floats. -/
def validateImageData (env : JsEnv) (imageData : String) (o : ValidationOptionsPartial) :
    ImgCheck :=
  if env.validB64 imageData then
    let blobSize := env.b64ByteLength imageData
    let sizeErrs := if jsOrNat o.maxFileSize (10 * 1024 * 1024) < blobSize then
        ["Image too large: " ++ toString (jsRoundMB blobSize) ++ "MB"] else []
    let fmtErrs := match o.allowedFormats with
      | some fmts => if "image/jpeg" ∈ fmts then [] else ["Unsupported format: image/jpeg"]
      | none => []
    match getImageDimensions env imageData with
    | some d =>
        let wErrs := match jsPosNat o.minWidth with
          | some mw => if d.width < mw then
              ["Width too small: " ++ toString d.width ++ "px (minimum: " ++
                toString mw ++ "px)"] else []
          | none => []
        let hErrs := match jsPosNat o.minHeight with
          | some mh => if d.height < mh then
              ["Height too small: " ++ toString d.height ++ "px (minimum: " ++
                toString mh ++ "px)"] else []
          | none => []
        let ratio : Rat := (d.width : Rat) / (d.height : Rat)
        let arWarn := if ratio < 1 / 2 ∨ 2 < ratio then
            ["Unusual aspect ratio may affect display quality"] else []
        let sqWarn := if 1 / 10 < |ratio - 1| then
            ["Non-square image may not be optimal for portrait use"] else []
        let errors := sizeErrs ++ fmtErrs ++ wErrs ++ hErrs
        { isValid := errors.isEmpty, errors := errors, warnings := arWarn ++ sqWarn,
          dimensions := some d }
    | none =>
        let errors := sizeErrs ++ fmtErrs
        { isValid := errors.isEmpty, errors := errors,
          warnings := ["Could not determine image dimensions"], dimensions := none }
  else
    { isValid := false, errors := ["Invalid base64 image data"], warnings := [],
      dimensions := none }

/-- `AIResponseHandler.extractMetadata` (everything but the quality field;
`format` is the hard-coded default). -/
def extractMetadata (metrics : AIGenerationMetrics) (dims : Option Dimensions)
    (tsNow : Nat) : MetadataParts :=
  { model := metrics.model, generationTime := metrics.duration, cost := metrics.cost,
    size := metrics.size, dimensions := dims, format := "image/jpeg", timestamp := tsNow }

/-- `AIResponseHandler.assessQuality`.  The `options` argument is accepted
and ignored, exactly as in the source. -/
def assessQuality (m : MetadataParts) (_options : ValidationOptionsPartial) : Quality :=
  let dimScore : Nat :=
    match m.dimensions with
    | some d =>
        let minDimension := min d.width d.height
        if 2048 ≤ minDimension then 3
        else if 1024 ≤ minDimension then 2
        else if 512 ≤ minDimension then 1
        else 0
    | none => 0
  let timeScore : Nat :=
    if m.generationTime < 5000 then 2 else if m.generationTime < 15000 then 1 else 0
  let sizeScore : Nat := match m.size with | .full => 2 | .preview => 1
  let score := dimScore + timeScore + sizeScore
  if 6 ≤ score then .high else if 3 ≤ score then .medium else .low

/-- `AIResponseHandler.processResponse`.  The source early-returns on
negated guards; here each guard is the positive condition with the failure
record in the else branch. -/
def processResponse (env : JsEnv) (response : GenerationResponse)
    (metrics : AIGenerationMetrics) (o : ValidationOptionsPartial) : ProcessedResponse :=
  let opts := mergeValidation o
  if response.success && jsSomeS response.imageData then
    let imageData := response.imageData.getD ""
    let v := validateImageData env imageData opts
    if v.isValid then
      let parts := extractMetadata metrics v.dimensions env.now
      let quality := assessQuality parts opts
      { success := true, imageData := response.imageData,
        metadata := some
          { model := parts.model, generationTime := parts.generationTime,
            cost := parts.cost, size := parts.size, quality := quality,
            dimensions := parts.dimensions, format := parts.format,
            timestamp := parts.timestamp },
        warnings := if v.warnings.isEmpty then none else some v.warnings }
    else
      { success := false,
        error := some ("Image validation failed: " ++ String.intercalate ", " v.errors) }
  else
    { success := false, error := some (jsOrS response.error "No image data received") }

/-! ## Quality scoring as the specification words it (the reference model
for C4/C9, written from the spec text, not from the source). -/

def specDimensionScore (shorterSide : Nat) : Nat :=
  if 2048 ≤ shorterSide then 3
  else if 1024 ≤ shorterSide then 2
  else if 512 ≤ shorterSide then 1
  else 0

def specDurationScore (ms : Nat) : Nat :=
  if ms < 5000 then 2 else if ms < 15000 then 1 else 0

def specSizeScore : SizeClass → Nat
  | .full => 2
  | .preview => 1

def specQualityOfScore (score : Nat) : Quality :=
  if 6 ≤ score then .high else if 3 ≤ score then .medium else .low

/-- C4.  `assessQuality` is exactly the additive scoring rule of the spec:
a deterministic function of the dimensions, the generation duration and the
size class alone (every other metadata field and the options argument are
irrelevant), and the spec's two worked examples score 7 → high and
1 → low. -/
theorem assessQuality_matches_spec_scoring :
    (∀ (model fmt : String) (cost : Rat) (ts w h dur : Nat) (size : SizeClass)
        (o : ValidationOptionsPartial),
      assessQuality
        { model := model, generationTime := dur, cost := cost, size := size,
          dimensions := some ⟨w, h⟩, format := fmt, timestamp := ts } o =
        specQualityOfScore
          (specDimensionScore (min w h) + specDurationScore dur + specSizeScore size)) ∧
    specDimensionScore 2048 + specDurationScore 3000 + specSizeScore .full = 7 ∧
    specQualityOfScore 7 = .high ∧
    specDimensionScore 300 + specDurationScore 20000 + specSizeScore .preview = 1 ∧
    specQualityOfScore 1 = .low := by
  refine ⟨?_, by decide, by decide, by decide, by decide⟩
  intro model fmt cost ts w h dur size o
  cases size <;> rfl

lemma validateImageData_server (env : JsEnv) (hserver : env.windowDefined = false)
    (s : String) (o : ValidationOptionsPartial) :
    (validateImageData env s o).dimensions = none ∧
    ((validateImageData env s o).isValid = true →
      (validateImageData env s o).warnings = ["Could not determine image dimensions"]) := by
  unfold validateImageData getImageDimensions
  rw [hserver]
  by_cases hb : env.validB64 s = true
  · simp [hb]
  · simp [hb]

lemma spec_preview_never_high (dur : Nat) :
    specQualityOfScore (specDurationScore dur + specSizeScore .preview) ≠ Quality.high := by
  by_cases h1 : dur < 5000
  · norm_num [specDurationScore, specSizeScore, specQualityOfScore, h1]
    decide
  · by_cases h2 : dur < 15000 <;>
      norm_num [specDurationScore, specSizeScore, specQualityOfScore, h1, h2] <;> decide

/-- C9.  Server side (no `window`), `getImageDimensions` is `null`, so every
successful `processResponse` carries no dimensions, always emits the
could-not-determine warning, scores 0 dimension points, and a preview-class
result is never rated high. -/
theorem processResponse_server_side_no_dimensions
    (env : JsEnv) (response : GenerationResponse) (metrics : AIGenerationMetrics)
    (o : ValidationOptionsPartial)
    (hserver : env.windowDefined = false)
    (hok : (processResponse env response metrics o).success = true) :
    ((processResponse env response metrics o).metadata.map fun m => m.dimensions) =
      some none ∧
    "Could not determine image dimensions" ∈
      ((processResponse env response metrics o).warnings.getD []) ∧
    ((processResponse env response metrics o).metadata.map fun m => m.quality) =
      some (specQualityOfScore (specDurationScore metrics.duration +
        specSizeScore metrics.size)) ∧
    (metrics.size = .preview →
      ((processResponse env response metrics o).metadata.map fun m => m.quality) ≠
        some Quality.high) := by
  have hv := validateImageData_server env hserver (response.imageData.getD "")
    (mergeValidation o)
  by_cases h1 : (response.success && jsSomeS response.imageData) = true
  · by_cases h2 : (validateImageData env (response.imageData.getD "")
        (mergeValidation o)).isValid = true
    · have hw := hv.2 h2
      have hq : assessQuality (extractMetadata metrics none env.now) (mergeValidation o) =
          specQualityOfScore (specDurationScore metrics.duration +
            specSizeScore metrics.size) := by
        unfold assessQuality extractMetadata
        cases metrics.size <;>
          simp [specDurationScore, specSizeScore, specQualityOfScore]
      have hres : processResponse env response metrics o =
          { success := true, imageData := response.imageData,
            metadata := some
              { model := metrics.model, generationTime := metrics.duration,
                cost := metrics.cost, size := metrics.size,
                quality := specQualityOfScore (specDurationScore metrics.duration +
                  specSizeScore metrics.size),
                dimensions := none, format := "image/jpeg", timestamp := env.now },
            warnings := some ["Could not determine image dimensions"] } := by
        simp only [processResponse]
        rw [if_pos h1, if_pos h2, hv.1, hw, hq]
        simp [extractMetadata]
      rw [hres]
      refine ⟨rfl, by simp, rfl, fun hsz => ?_⟩
      rw [hsz]
      simpa using spec_preview_never_high metrics.duration
    · exfalso
      simp [processResponse, h1, h2] at hok
  · exfalso
    simp [processResponse, h1] at hok

/-- Concrete environment with no rendering surface, used by the witnesses. -/
def plainJs : JsEnv :=
  { validB64 := fun _ => true, b64ByteLength := fun _ => 1024,
    windowDefined := false, browserDims := fun _ => none, now := 0 }

def sampleResponse : GenerationResponse := { success := true, imageData := some "GENDATA" }

def sampleMetrics : AIGenerationMetrics :=
  createMetrics 0 1000 "gemini-2.5-flash-image-preview" .preview

/-- Witness for C9 at a concrete successful server-side preview response. -/
theorem processResponse_server_side_no_dimensions_witness :
    plainJs.windowDefined = false ∧
    (processResponse plainJs sampleResponse sampleMetrics {}).success = true ∧
    ((processResponse plainJs sampleResponse sampleMetrics {}).metadata.map
      fun m => m.dimensions) = some none ∧
    ((processResponse plainJs sampleResponse sampleMetrics {}).metadata.map
      fun m => m.quality) ≠ some Quality.high := by
  have hok : (processResponse plainJs sampleResponse sampleMetrics {}).success = true := by
    decide
  have h := processResponse_server_side_no_dimensions plainJs sampleResponse sampleMetrics
    {} rfl hok
  exact ⟨rfl, hok, h.1, h.2.2.2 rfl⟩

/-! ## Watermark compositor (`lib/watermark.ts`)

The sharp image library and Node base64 buffers are an oracle.  The SVG
overlay that the source serializes to XML markup is modelled as a
structured record carrying exactly the data interpolated into the markup
(no claim depends on the XML text itself). -/

inductive WatermarkPosition where
  | bottomRight
  | bottomCenter
  | center
  | topRight
deriving Repr, DecidableEq

structure WatermarkOptions where
  text : String
  opacity : Rat
  fontSize : Rat
  fontFamily : String
  color : String
  backgroundColor : Option String := none
  position : WatermarkPosition
  padding : Rat
  pattern : Option Bool := none
deriving Repr, DecidableEq

structure WatermarkOptionsPartial where
  text : Option String := none
  opacity : Option Rat := none
  fontSize : Option Rat := none
  fontFamily : Option String := none
  color : Option String := none
  backgroundColor : Option String := none
  position : Option WatermarkPosition := none
  padding : Option Rat := none
  pattern : Option Bool := none
deriving Repr, DecidableEq

def WATERMARK_DEFAULT_OPTIONS : WatermarkOptions :=
  { text := "PREVIEW - Portrait Banana", opacity := 7 / 10, fontSize := 24,
    fontFamily := "Arial, sans-serif", color := "rgba(0, 0, 0, 0.8)",
    backgroundColor := some "rgba(255, 255, 255, 0.9)", position := .bottomCenter,
    padding := 20, pattern := some true }

/-- The spread `{ ...DEFAULT_OPTIONS, ...options }` in `addWatermark`. -/
def mergeWatermarkOptions (p : WatermarkOptionsPartial) : WatermarkOptions :=
  { text := p.text.getD WATERMARK_DEFAULT_OPTIONS.text,
    opacity := p.opacity.getD WATERMARK_DEFAULT_OPTIONS.opacity,
    fontSize := p.fontSize.getD WATERMARK_DEFAULT_OPTIONS.fontSize,
    fontFamily := p.fontFamily.getD WATERMARK_DEFAULT_OPTIONS.fontFamily,
    color := p.color.getD WATERMARK_DEFAULT_OPTIONS.color,
    backgroundColor :=
      match p.backgroundColor with
      | some b => some b
      | none => WATERMARK_DEFAULT_OPTIONS.backgroundColor,
    position := p.position.getD WATERMARK_DEFAULT_OPTIONS.position,
    padding := p.padding.getD WATERMARK_DEFAULT_OPTIONS.padding,
    pattern :=
      match p.pattern with
      | some b => some b
      | none => WATERMARK_DEFAULT_OPTIONS.pattern }

structure Pos where
  x : Rat
  y : Rat
deriving Repr, DecidableEq

/-- `WatermarkService.calculateServerPosition`: note the single
`imageSize` parameter used for both coordinates; `1.2` is `6/5`.  The
JavaScript `default` switch arm is unreachable over the position enum. -/
def calculateServerPosition (imageSize : Nat) (position : WatermarkPosition)
    (fontSize : Rat) : Pos :=
  let padding : Rat := 20
  let textHeight : Rat := fontSize * (6 / 5)
  match position with
  | .bottomCenter => ⟨(imageSize : Rat) / 2, (imageSize : Rat) - padding - textHeight / 2⟩
  | .bottomRight => ⟨(imageSize : Rat) - padding, (imageSize : Rat) - padding - textHeight / 2⟩
  | .topRight => ⟨(imageSize : Rat) - padding, padding + textHeight / 2⟩
  | .center => ⟨(imageSize : Rat) / 2, (imageSize : Rat) / 2⟩

structure SvgRect where
  x : Rat
  y : Rat
  w : Rat
  h : Rat
  fill : String
  opacity : Rat
deriving Repr, DecidableEq

structure WatermarkSvg where
  width : Nat
  height : Nat
  rect : Option SvgRect
  textX : Rat
  textY : Rat
  fontSize : Rat
  fill : String
  opacity : Rat
  text : String
deriving Repr, DecidableEq

/-- `WatermarkService.createWatermarkSvg` (`0.6` is `3/5`); the backing
rectangle is emitted only for a truthy `backgroundColor`. -/
def createWatermarkSvg (o : WatermarkOptions) (imageWidth imageHeight : Nat) :
    WatermarkSvg :=
  let textWidth : Rat := (o.text.length : Rat) * o.fontSize * (3 / 5)
  let textHeight : Rat := o.fontSize * (6 / 5)
  let pos := calculateServerPosition imageWidth o.position o.fontSize
  { width := imageWidth, height := imageHeight,
    rect :=
      match o.backgroundColor with
      | some bg =>
          if bg.isEmpty then none
          else some
            { x := pos.x - textWidth / 2 - 10, y := pos.y - textHeight / 2 - 5,
              w := textWidth + 20, h := textHeight + 10, fill := bg, opacity := o.opacity }
      | none => none,
    textX := pos.x, textY := pos.y, fontSize := o.fontSize, fill := o.color,
    opacity := o.opacity, text := o.text }

structure SharpMetadata where
  width : Option Nat := none
  height : Option Nat := none
deriving Repr, DecidableEq

/-- Oracle for sharp and Node base64 buffers: decoding, metadata probing,
and the `composite(...).png().toBuffer()` chain (whose output format is
fixed to PNG by the source calling `.png()`), taking the overlay and its
`top`/`left` placement. -/
structure SharpOracle where
  b64decode : String → List Nat
  b64encode : List Nat → String
  metadata : List Nat → Except String SharpMetadata
  compositePng : List Nat → WatermarkSvg → Rat → Rat → Except String (List Nat)

/-- The anchored regex replace `^data:image\/[a-z]+;base64,` of the source. -/
def stripDataUrlHeader (s : String) : String :=
  if strStartsWith s "data:image/" then
    let rest := strDrop s 11
    let letters := strTakeWhileLower rest
    if 1 ≤ letters.length ∧ strStartsWith (strDrop rest letters.length) ";base64," then
      strDrop (strDrop rest letters.length) 8
    else s
  else s

structure WatermarkResult where
  success : Bool
  imageData : Option String := none
  error : Option String := none
deriving Repr, DecidableEq

/-- `WatermarkService.addWatermarkServer`: decode, probe metadata
(destructuring defaults `width = 512`, `height = 512` for undefined
fields), build the SVG overlay, composite at the computed position — the
position and the SVG are both computed from the `width` — and re-encode
as a PNG data URL. -/
def addWatermarkServer (sharp : SharpOracle) (imageData : String)
    (options : WatermarkOptions) : WatermarkResult :=
  let base64Data := stripDataUrlHeader imageData
  let imageBuffer := sharp.b64decode base64Data
  match sharp.metadata imageBuffer with
  | .error e => { success := false, error := some e }
  | .ok md =>
      let width := md.width.getD 512
      let height := md.height.getD 512
      let watermarkSvg := createWatermarkSvg options width height
      let watermarkPos := calculateServerPosition width options.position options.fontSize
      match sharp.compositePng imageBuffer watermarkSvg watermarkPos.y watermarkPos.x with
      | .error e => { success := false, error := some e }
      | .ok buf =>
          { success := true,
            imageData := some ("data:image/png;base64," ++ sharp.b64encode buf) }

/-- `WatermarkService.addWatermark`: merge the defaults and go straight to
the server implementation.  The surrounding try/catch of the source is
unreachable here because `addWatermarkServer` returns its failures. -/
def addWatermark (sharp : SharpOracle) (imageData : String)
    (p : WatermarkOptionsPartial) : WatermarkResult :=
  addWatermarkServer sharp imageData (mergeWatermarkOptions p)

/-- The fixed parameter set of `WatermarkService.addPreviewWatermark`. -/
def previewWatermarkOptions : WatermarkOptions :=
  { text := "PREVIEW - Portrait Banana", fontSize := 20,
    fontFamily := "Arial, sans-serif", position := .bottomCenter, opacity := 8 / 10,
    backgroundColor := some "rgba(255, 255, 255, 0.9)", color := "rgba(0, 0, 0, 0.8)",
    padding := 20, pattern := some true }

def addPreviewWatermark (sharp : SharpOracle) (imageData : String) : WatermarkResult :=
  addWatermarkServer sharp imageData previewWatermarkOptions

def addSubtleWatermark (sharp : SharpOracle) (imageData : String) : WatermarkResult :=
  addWatermark sharp imageData
    { text := some "Portrait Banana", fontSize := some 16, position := some .bottomRight,
      opacity := some (1 / 2), backgroundColor := some "rgba(255, 255, 255, 0.7)",
      color := some "rgba(0, 0, 0, 0.6)", pattern := some false }

/-- `WatermarkService.validateOptions`, with the source's JavaScript
truthiness guards (a zero value short-circuits each check). -/
def validateOptions (p : WatermarkOptionsPartial) : Bool × List String :=
  let textErrs := match p.text with
    | some t =>
        if ¬t.isEmpty ∧ 100 < t.length then
          ["Watermark text too long (max 100 characters)"] else []
    | none => []
  let opacityErrs := match p.opacity with
    | some op =>
        if op ≠ 0 ∧ (op < 0 ∨ 1 < op) then ["Opacity must be between 0 and 1"] else []
    | none => []
  let fontErrs := match p.fontSize with
    | some fs =>
        if fs ≠ 0 ∧ (fs < 8 ∨ 72 < fs) then ["Font size must be between 8 and 72"] else []
    | none => []
  let padErrs := match p.padding with
    | some pd => if pd ≠ 0 ∧ pd < 0 then ["Padding must be non-negative"] else []
    | none => []
  let errors := textErrs ++ opacityErrs ++ fontErrs ++ padErrs
  (errors.isEmpty, errors)

/-! ### Watermark claims -/

/-- Sharp oracle that always succeeds; used for concrete watermark runs. -/
def okSharp : SharpOracle :=
  { b64decode := fun _ => [], b64encode := fun _ => "WM",
    metadata := fun _ => .ok { width := some 512, height := some 512 },
    compositePng := fun _ _ _ _ => .ok [] }

/-- Probe oracle reporting a 1000×500 image and failing the composite step
exactly when the overlay `top` is at or beyond the 500px bottom edge. -/
def probeSharp1000x500 : SharpOracle :=
  { b64decode := fun _ => [], b64encode := fun _ => "WM",
    metadata := fun _ => .ok { width := some 1000, height := some 500 },
    compositePng := fun _ _ top _ =>
      if (500 : Rat) ≤ top then .error "watermark top at or beyond the bottom edge"
      else .ok [] }

/-- C5 counterexample.  For a 1000×500 image the bottom-center anchor is
computed from the width alone: `y = 968`, which is not at the fixed
padding from the 500px bottom edge (that would be `y = 468`) and in fact
lies below the image entirely, as the probe oracle observes on the actual
`addWatermarkServer` composite call. -/
theorem calculateServerPosition_bottom_anchor_ignores_height :
    (calculateServerPosition 1000 .bottomCenter 20).y = 968 ∧
    (500 : Rat) - (calculateServerPosition 1000 .bottomCenter 20).y ≠
      20 + 20 * (6 / 5) / 2 ∧
    (500 : Rat) < (calculateServerPosition 1000 .bottomCenter 20).y ∧
    (addWatermarkServer probeSharp1000x500 "IMG" previewWatermarkOptions).error =
      some "watermark top at or beyond the bottom edge" := by
  refine ⟨by norm_num [calculateServerPosition], by norm_num [calculateServerPosition],
    by norm_num [calculateServerPosition], ?_⟩
  have hy : (500 : Rat) ≤
      (calculateServerPosition 1000 WatermarkPosition.bottomCenter 20).y := by
    norm_num [calculateServerPosition]
  simp only [addWatermarkServer, probeSharp1000x500, previewWatermarkOptions,
    Option.getD, if_pos hy]

/-- C5 amended.  `calculateServerPosition` is a pure deterministic function
of a single image-size parameter (the width, as `addWatermarkServer` calls
it), the anchor and the font size; the four anchors resolve to the fixed
formulas below, right anchors sit at the fixed padding from the right edge
(a function of the width, as claimed), and bottom anchors sit at the fixed
padding above `y = width` — which is the bottom edge only for square
images. -/
theorem calculateServerPosition_formula (size : Nat) (fs : Rat) :
    calculateServerPosition size .bottomCenter fs =
      ⟨(size : Rat) / 2, (size : Rat) - 20 - fs * (6 / 5) / 2⟩ ∧
    calculateServerPosition size .bottomRight fs =
      ⟨(size : Rat) - 20, (size : Rat) - 20 - fs * (6 / 5) / 2⟩ ∧
    calculateServerPosition size .topRight fs =
      ⟨(size : Rat) - 20, 20 + fs * (6 / 5) / 2⟩ ∧
    calculateServerPosition size .center fs =
      ⟨(size : Rat) / 2, (size : Rat) / 2⟩ ∧
    (size : Rat) - (calculateServerPosition size .bottomRight fs).x = 20 ∧
    (size : Rat) - (calculateServerPosition size .bottomCenter fs).y =
      20 + fs * (6 / 5) / 2 := by
  refine ⟨rfl, rfl, rfl, rfl, by simp [calculateServerPosition], ?_⟩
  simp [calculateServerPosition]
  ring

lemma validateOptions_opacity (op : Rat) :
    (validateOptions { opacity := some op }).1 = true ↔
      (op = 0 ∨ (0 ≤ op ∧ op ≤ 1)) := by
  unfold validateOptions
  simp only [List.nil_append, List.append_nil]
  split
  case isTrue h =>
    simp only [List.isEmpty_cons]
    refine iff_of_false (by simp) ?_
    rcases h with ⟨h0, h1 | h1⟩ <;> rintro (h2 | ⟨h3, h4⟩) <;>
      first | exact h0 h2 | linarith
  case isFalse h =>
    refine ⟨fun _ => ?_, fun _ => by simp⟩
    by_cases h0 : op = 0
    · exact Or.inl h0
    · push_neg at h
      exact Or.inr (h h0)

lemma validateOptions_fontSize (fs : Rat) :
    (validateOptions { fontSize := some fs }).1 = true ↔
      (fs = 0 ∨ (8 ≤ fs ∧ fs ≤ 72)) := by
  unfold validateOptions
  simp only [List.nil_append, List.append_nil]
  split
  case isTrue h =>
    simp only [List.isEmpty_cons]
    refine iff_of_false (by simp) ?_
    rcases h with ⟨h0, h1 | h1⟩ <;> rintro (h2 | ⟨h3, h4⟩) <;>
      first | exact h0 h2 | linarith
  case isFalse h =>
    refine ⟨fun _ => ?_, fun _ => by simp⟩
    by_cases h0 : fs = 0
    · exact Or.inl h0
    · push_neg at h
      exact Or.inr (h h0)

lemma validateOptions_padding (pd : Rat) :
    (validateOptions { padding := some pd }).1 = true ↔ 0 ≤ pd := by
  unfold validateOptions
  simp only [List.nil_append, List.append_nil]
  split
  case isTrue h =>
    simp only [List.isEmpty_cons]
    refine iff_of_false (by simp) (not_le.mpr h.2)
  case isFalse h =>
    refine ⟨fun _ => ?_, fun _ => by simp⟩
    by_cases h0 : pd = 0
    · simp [h0]
    · push_neg at h
      exact h h0

/-- C7 counterexample.  Opacity `2` is outside `[0, 1]` and
`validateOptions` flags it, yet `addWatermark` still succeeds (with an
oracle for which the image operations succeed): the operation proceeds
instead of being rejected. -/
theorem addWatermark_accepts_invalid_opacity :
    (validateOptions { opacity := some 2 }).1 = false ∧
    (validateOptions { opacity := some 2 }).2 = ["Opacity must be between 0 and 1"] ∧
    (addWatermark okSharp "IMG" { opacity := some 2 }).success = true := by
  refine ⟨?_, ?_, rfl⟩
  · have h2 : ¬((validateOptions { opacity := some 2 }).1 = true) := by
      rw [validateOptions_opacity]
      norm_num
    simpa using h2
  · unfold validateOptions
    simp only [List.nil_append, List.append_nil]
    rw [if_pos (by norm_num : (2 : Rat) ≠ 0 ∧ ((2 : Rat) < 0 ∨ 1 < (2 : Rat)))]

/-- C7 amended.  `validateOptions` does flag opacity outside `[0, 1]`,
font size outside `[8, 72]` and negative padding (each skipped for the
falsy value `0`), but `addWatermark` never consults it: with an oracle for
which the image operations succeed, `addWatermark` succeeds for every
options record, valid or not. -/
theorem addWatermark_skips_validation (p : WatermarkOptionsPartial) (op fs pd : Rat) :
    (addWatermark okSharp "IMG" p).success = true ∧
    ((validateOptions { opacity := some op }).1 = true ↔
      (op = 0 ∨ (0 ≤ op ∧ op ≤ 1))) ∧
    ((validateOptions { fontSize := some fs }).1 = true ↔
      (fs = 0 ∨ (8 ≤ fs ∧ fs ≤ 72))) ∧
    ((validateOptions { padding := some pd }).1 = true ↔ 0 ≤ pd) :=
  ⟨rfl, validateOptions_opacity op, validateOptions_fontSize fs,
    validateOptions_padding pd⟩

lemma addWatermarkServer_png (sharp : SharpOracle) (imageData : String)
    (options : WatermarkOptions)
    (h : (addWatermarkServer sharp imageData options).success = true) :
    ∃ rest, (addWatermarkServer sharp imageData options).imageData =
      some ("data:image/png;base64," ++ rest) := by
  unfold addWatermarkServer at h ⊢
  rcases hm : sharp.metadata (sharp.b64decode (stripDataUrlHeader imageData)) with e | md
  · simp only [hm] at h
    exact absurd h (by decide)
  · simp only [hm] at h ⊢
    rcases hc : sharp.compositePng (sharp.b64decode (stripDataUrlHeader imageData))
        (createWatermarkSvg options (md.width.getD 512) (md.height.getD 512))
        (calculateServerPosition (md.width.getD 512) options.position options.fontSize).y
        (calculateServerPosition (md.width.getD 512) options.position options.fontSize).x
      with e | buf
    · simp only [hc] at h
      exact absurd h (by decide)
    · simp only [hc]
      exact ⟨sharp.b64encode buf, rfl⟩

/-- C10.  Whenever watermarking succeeds, `addWatermark` (and its
`addPreviewWatermark` / `addSubtleWatermark` wrappers) returns the
composited image as a `data:image/png;base64,…` data URL, whatever the
input image format was. -/
theorem addWatermark_output_png_data_url (sharp : SharpOracle) (imageData : String)
    (p : WatermarkOptionsPartial) :
    ((addWatermark sharp imageData p).success = true →
      ∃ rest, (addWatermark sharp imageData p).imageData =
        some ("data:image/png;base64," ++ rest)) ∧
    ((addPreviewWatermark sharp imageData).success = true →
      ∃ rest, (addPreviewWatermark sharp imageData).imageData =
        some ("data:image/png;base64," ++ rest)) ∧
    ((addSubtleWatermark sharp imageData).success = true →
      ∃ rest, (addSubtleWatermark sharp imageData).imageData =
        some ("data:image/png;base64," ++ rest)) :=
  ⟨fun h => addWatermarkServer_png sharp imageData (mergeWatermarkOptions p) h,
   fun h => addWatermarkServer_png sharp imageData previewWatermarkOptions h,
   fun h => addWatermarkServer_png sharp imageData
     (mergeWatermarkOptions
       { text := some "Portrait Banana", fontSize := some 16,
         position := some .bottomRight, opacity := some (1 / 2),
         backgroundColor := some "rgba(255, 255, 255, 0.7)",
         color := some "rgba(0, 0, 0, 0.6)", pattern := some false }) h⟩

/-- Witness for C10: with the always-succeeding oracle, all three entry
points succeed and produce PNG data URLs. -/
theorem addWatermark_output_png_data_url_witness :
    (addWatermark okSharp "IMG" {}).success = true ∧
    (∃ rest, (addWatermark okSharp "IMG" {}).imageData =
      some ("data:image/png;base64," ++ rest)) ∧
    (addPreviewWatermark okSharp "IMG").success = true ∧
    (∃ rest, (addPreviewWatermark okSharp "IMG").imageData =
      some ("data:image/png;base64," ++ rest)) ∧
    (addSubtleWatermark okSharp "IMG").success = true ∧
    (∃ rest, (addSubtleWatermark okSharp "IMG").imageData =
      some ("data:image/png;base64," ++ rest)) :=
  ⟨rfl, (addWatermark_output_png_data_url okSharp "IMG" {}).1 rfl,
   rfl, (addWatermark_output_png_data_url okSharp "IMG" {}).2.1 rfl,
   rfl, (addWatermark_output_png_data_url okSharp "IMG" {}).2.2 rfl⟩

/-! ## Prompt builder (`lib/prompt-builder.ts`) -/

def styleKeys : List String := ["professional", "casual", "executive", "creative"]

def backgroundKeys : List String := ["office", "studio", "outdoor", "conference"]

def industryKeys : List String :=
  ["technology", "finance", "healthcare", "legal", "education", "consulting",
   "marketing", "sales", "general"]

structure CustomizationOptions where
  background : Option String := none
  style : Option String := none
  industry : Option String := none
  mood : Option String := none
  additionalRequirements : Option (List String) := none
deriving Repr, DecidableEq

/-- `PromptBuilder.validateContext` for the context the route builds
(style, background and industry each after its `|| default` fallback; the
industry check only runs for a truthy value). -/
def validateContext (style background industry : String) : Bool × List String :=
  let styleErrs := if style ∈ styleKeys then [] else ["Invalid style: " ++ style]
  let bgErrs :=
    if background ∈ backgroundKeys then [] else ["Invalid background: " ++ background]
  let indErrs :=
    if ¬industry.isEmpty ∧ industry ∉ industryKeys then
      ["Invalid industry: " ++ industry] else []
  let errors := styleErrs ++ bgErrs ++ indErrs
  (errors.isEmpty, errors)

/-- `PromptBuilder.buildPrompt(options, {industry, mood,
additionalRequirements})` as the route calls it, projected to the
`detailed` variant the route uses.  `buildContext` applies the
`|| default` fallbacks; each variant builder then indexes the fixed
style/background tables, and an unknown style or background is an
undefined lookup whose property access throws a `TypeError` (surfaced by
the route's catch-all as a 500).  The English template literal is
abbreviated to a canonical rendering of the interpolated data: the prompt
string is passed opaquely to the provider oracle and no claim depends on
its wording. -/
def buildPromptDetailed (options : CustomizationOptions) : Except String String :=
  let style := jsOrS options.style "professional"
  let background := jsOrS options.background "office"
  let industry := jsOrS options.industry "general"
  let mood := jsOrS options.mood "confident"
  if style ∈ styleKeys ∧ background ∈ backgroundKeys then
    .ok (String.intercalate "|"
      ["detailed", style, background, industry, mood,
       String.intercalate ";" (options.additionalRequirements.getD [])])
  else
    .error "TypeError: cannot read properties of undefined"

/-! ## AI utilities (`lib/ai-utils.ts`): image validation and errors -/

structure ValidationResult where
  isValid : Bool
  errors : List String
  warnings : List String
deriving Repr, DecidableEq

/-- `ImageUtils.validateImageForAI` on an uploaded image's width, height
and byte size. -/
def validateImageForAI (width height size : Nat) : ValidationResult :=
  let dimErrs :=
    (if width < PREVIEW_SIZE then
      ["Image width must be at least " ++ toString PREVIEW_SIZE ++ "px"] else []) ++
    (if height < PREVIEW_SIZE then
      ["Image height must be at least " ++ toString PREVIEW_SIZE ++ "px"] else [])
  let sizeErrs :=
    if 10 * 1024 * 1024 < size then
      ["Image size must be less than " ++ toString (jsRoundMB (10 * 1024 * 1024)) ++ "MB"]
    else []
  let ratio : Rat := (width : Rat) / (height : Rat)
  let arWarn := if ratio < 1 / 2 ∨ 2 < ratio then
      ["Extreme aspect ratio may affect generation quality"] else []
  let fullWarn := if width < FULL_SIZE ∨ height < FULL_SIZE then
      ["Image resolution may be insufficient for full-size generation"] else []
  let errors := dimErrs ++ sizeErrs
  { isValid := errors.isEmpty, errors := errors, warnings := arWarn ++ fullWarn }

/-- `ImageUtils.getOptimalGenerationSize`. -/
def getOptimalGenerationSize (width height : Nat) : SizeClass :=
  if FULL_SIZE ≤ min width height then .full else .preview

structure ParsedAIError where
  code : String
  message : String
  retryable : Bool
deriving Repr, DecidableEq

/-- `ErrorUtils.parseAIError` (substring classification of the error
message). -/
def parseAIError (message : Option String) : ParsedAIError :=
  let m := message.getD ""
  if jsIncludes m "API key" then
    { code := "INVALID_API_KEY", message := "Invalid or missing API key",
      retryable := false }
  else if jsIncludes m "quota" then
    { code := "QUOTA_EXCEEDED", message := "API quota exceeded", retryable := true }
  else if jsIncludes m "timeout" then
    { code := "TIMEOUT", message := "Request timed out", retryable := true }
  else if jsIncludes m "rate limit" then
    { code := "RATE_LIMITED", message := "Rate limit exceeded", retryable := true }
  else
    { code := "UNKNOWN_ERROR", message := jsOrS message "Unknown error occurred",
      retryable := true }

/-- `ErrorUtils.getUserFriendlyMessage`: the fixed per-code mapping. -/
def getUserFriendlyMessage (message : Option String) : String :=
  let parsed := parseAIError message
  if parsed.code = "INVALID_API_KEY" then
    "There was a problem with the AI service configuration. Please try again later."
  else if parsed.code = "QUOTA_EXCEEDED" then
    "The AI service is temporarily unavailable. Please try again in a few minutes."
  else if parsed.code = "TIMEOUT" then
    "The request took too long to process. Please try again."
  else if parsed.code = "RATE_LIMITED" then
    "Too many requests. Please wait a moment and try again."
  else
    "Something went wrong while generating your portrait. Please try again."

/-! ## Generation client (`lib/ai-service.ts`)

The Gemini call is an oracle `attempts : Nat → Except String String`
giving the raw outcome of each provider attempt (the raw error message on
failure; `callGeminiAPI` rethrows it wrapped in
`Failed to generate image: `).  `retryCount` is reset to `0` at the top of
every invocation and the retry path recurses into the full function, so
with `maxRetries = 0` there is exactly one attempt and with
`maxRetries ≥ 1` the service retries until an attempt succeeds; `fuel`
bounds that unbounded recursion, with `none` marking divergence within
the fuel.  Wall-clock `generationTime` is not modelled (fixed `0`); the
route never reads it. -/

def calculateCost (size : SizeClass) : Rat :=
  match size with
  | .preview => PREVIEW_COST
  | .full => FULL_COST

def generateAttempts (maxRetries : Nat) (attempts : Nat → Except String String) :
    Nat → Nat → Option (Except String String × Nat)
  | 0, _ => none
  | fuel + 1, k =>
      match attempts k with
      | .ok d => some (.ok d, k + 1)
      | .error e =>
          if 0 < maxRetries then generateAttempts maxRetries attempts fuel (k + 1)
          else some (.error e, k + 1)

/-- `AIService.generatePortrait`, returning the response together with the
number of provider calls made.  The dev-mode branch echoes the uploaded
base64 payload at zero cost without calling the provider. -/
def generatePortrait (devSkip : Bool) (maxRetries : Nat)
    (attempts : Nat → Except String String) (fuel : Nat) (imageBase64 : String)
    (size : SizeClass) : Option (GenerationResponse × Nat) :=
  if devSkip then
    some ({ success := true, imageData := some imageBase64, cost := some 0,
            generationTime := some 0 }, 0)
  else
    match generateAttempts maxRetries attempts fuel 0 with
    | none => none
    | some (.ok d, calls) =>
        some ({ success := true, imageData := some d,
                cost := some (calculateCost size), generationTime := some 0 }, calls)
    | some (.error e, calls) =>
        some ({ success := false, error := some ("Failed to generate image: " ++ e) },
              calls)

/-! ## Preview generation route (`app/api/generate-preview/route.ts`)

`POST` is modelled per client identity: the rate-limit store argument is
this identity's entry, body parsing is an `Except` (a parse failure is the
thrown error reaching the catch-all 500), and the outcome records the
HTTP status, the JSON body, the resulting store and the number of
provider calls made.  Response headers are not modelled. -/

structure PreviewImage where
  id : String
  preview : String
  size : Nat
  type : String
  dimensions : Dimensions
  uploadedAt : String
  base64Data : String
deriving Repr, DecidableEq

structure PreviewRequestBody where
  image : Option PreviewImage := none
  options : Option CustomizationOptions := none
  prompt : Option String := none
  useCase : Option String := none
deriving Repr, DecidableEq

structure PreviewMetadata where
  generationTime : Nat
  cost : Rat
  dimensions : Dimensions
  quality : Quality
  watermarked : Bool
deriving Repr, DecidableEq

structure PostBody where
  success : Bool
  error : Option String := none
  retryAfter : Option Int := none
  resetTime : Option Nat := none
  previewUrl : Option String := none
  imageData : Option String := none
  metadata : Option PreviewMetadata := none
  warnings : Option (List String) := none
deriving Repr, DecidableEq

structure PostOutcome where
  status : Nat
  body : PostBody
  store : Option RateLimitEntry
  providerCalls : Nat
deriving Repr, DecidableEq

structure PostDeps where
  isDevelopment : Bool
  devSkipAI : Bool
  now : Nat
  endTime : Nat
  model : String
  maxRetries : Nat
  fuel : Nat
  attempts : Nat → Except String String
  js : JsEnv
  sharp : SharpOracle

def postMaxAttempts (deps : PostDeps) : Nat :=
  if deps.isDevelopment then 50 else RATE_LIMIT_MAX_ATTEMPTS_PER_IP

def postWindowMs (deps : PostDeps) : Nat :=
  if deps.isDevelopment then 60 * 60 * 1000 else RATE_LIMIT_WINDOW_MS

/-- The validation options the route passes to `processResponse`. -/
def previewValidation : ValidationOptionsPartial :=
  { minWidth := some PREVIEW_SIZE, minHeight := some PREVIEW_SIZE,
    maxFileSize := some (5 * 1024 * 1024),
    allowedFormats := some ["image/jpeg", "image/png", "image/webp"] }

/-- `createPreviewUrl` of the route module. -/
def createPreviewUrl (imageData : String) : String :=
  if strStartsWith imageData "data:" then imageData
  else "data:image/png;base64," ++ imageData

/-- The denied-admission response (429). -/
def post429 (rl : RateLimitResult) (store : Option RateLimitEntry) : PostOutcome :=
  { status := 429,
    body := { success := false,
              error := some "Rate limit exceeded. Please try again later.",
              retryAfter := rl.retryAfter, resetTime := some rl.resetTime },
    store := store, providerCalls := 0 }

/-- Everything the route does after admission: the HTTP status, the JSON
body and the provider call count.  The source early-returns on negated
guards; each guard here is the positive condition with the failure
response in the else branch.  No code after admission touches the
rate-limit store (as in the source), so the store is attached uniformly
by `postInner` below. -/
def postInnerCore (deps : PostDeps) (body : Except String PreviewRequestBody) :
    Option (Nat × PostBody × Nat) :=
  match body with
  | .error msg =>
      some (500,
        { success := false, error := some ("Preview generation failed: " ++ msg) }, 0)
  | .ok b =>
      match b.image, b.options with
      | some image, some options =>
          if jsTruthy image.base64Data && jsTruthy image.id && jsTruthy image.type then
            if jsSomeS options.background && jsSomeS options.style then
              match buildPromptDetailed options with
              | .error msg =>
                  some (500,
                    { success := false,
                      error := some ("Preview generation failed: " ++ msg) }, 0)
              | .ok detailed =>
                  let _finalPrompt := jsOrS b.prompt detailed
                  let vc := validateContext (jsOrS options.style "professional")
                    (jsOrS options.background "office") (jsOrS options.industry "general")
                  if vc.1 then
                    match generatePortrait deps.devSkipAI deps.maxRetries deps.attempts
                        deps.fuel image.base64Data .preview with
                    | none => none
                    | some (gen, calls) =>
                        if gen.success && jsSomeS gen.imageData then
                          let metrics := createMetrics deps.now deps.endTime deps.model
                            .preview
                          let processed := processResponse deps.js gen metrics
                            previewValidation
                          if processed.success && jsSomeS processed.imageData then
                            let pImg := processed.imageData.getD ""
                            let wm := addPreviewWatermark deps.sharp pImg
                            let watermarked := jsOrS wm.imageData pImg
                            let metadata : PreviewMetadata :=
                              { generationTime := metrics.duration, cost := metrics.cost,
                                dimensions :=
                                  match processed.metadata with
                                  | some m => m.dimensions.getD ⟨PREVIEW_SIZE, PREVIEW_SIZE⟩
                                  | none => ⟨PREVIEW_SIZE, PREVIEW_SIZE⟩,
                                quality :=
                                  match processed.metadata with
                                  | some m => m.quality
                                  | none => .medium,
                                watermarked := true }
                            some (200,
                              { success := true,
                                previewUrl := some (createPreviewUrl watermarked),
                                imageData := some watermarked,
                                metadata := some metadata,
                                warnings := processed.warnings }, calls)
                          else
                            some (500,
                              { success := false,
                                error := some (jsOrS processed.error
                                  "Failed to process generated image") }, calls)
                        else
                          some (500,
                            { success := false,
                              error := some (jsOrS gen.error
                                "Failed to generate preview") }, calls)
                  else
                    some (400,
                      { success := false,
                        error := some ("Invalid prompt context: " ++
                          String.intercalate ", " vc.2) }, 0)
            else
              some (400,
                { success := false,
                  error := some "Invalid options: background and style are required" }, 0)
          else
            some (400,
              { success := false,
                error := some "Invalid image data: missing required fields" }, 0)
      | _, _ =>
          some (400,
            { success := false,
              error := some "Missing required fields: image and options are required" }, 0)

/-- Attach the (untouched) post-admission store to the core outcome. -/
def postInner (deps : PostDeps) (store : Option RateLimitEntry)
    (body : Except String PreviewRequestBody) : Option PostOutcome :=
  (postInnerCore deps body).map fun r =>
    { status := r.1, body := r.2.1, store := store, providerCalls := r.2.2 }

/-- The route's `POST` handler: admission first, then everything else. -/
def POST (deps : PostDeps) (store : Option RateLimitEntry)
    (body : Except String PreviewRequestBody) : Option PostOutcome :=
  let rl := checkRateLimit (postMaxAttempts deps) (postWindowMs deps) store deps.now
  if rl.1.allowed then postInner deps rl.2 body
  else some (post429 rl.1 store)

/-! ### Route claims -/

lemma postInner_store (deps : PostDeps) (store : Option RateLimitEntry)
    (body : Except String PreviewRequestBody) (out : PostOutcome)
    (h : postInner deps store body = some out) : out.store = store := by
  unfold postInner at h
  cases hc : postInnerCore deps body with
  | none => rw [hc] at h; cases h
  | some r => rw [hc] at h; cases h; rfl

lemma checkRateLimit_allowed_store (N W : Nat) (store : Option RateLimitEntry) (now : Nat)
    (h : (checkRateLimit N W store now).1.allowed = true) :
    (checkRateLimit N W store now).2 =
      some ⟨(effectiveEntry W store now).count + 1,
        (effectiveEntry W store now).resetTime, now⟩ := by
  unfold checkRateLimit at h ⊢
  by_cases hc : N ≤ (effectiveEntry W store now).count
  · rw [if_pos hc] at h
    simp at h
  · rw [if_neg hc]

/-- C8.  Admission runs before the body is even parsed: a denied identity
gets the 429 whatever the body holds, and an admitted request that then
fails field validation with a 400 still leaves the incremented counter in
the store — the slot is consumed, never rolled back. -/
theorem post_admission_before_validation (deps : PostDeps)
    (store : Option RateLimitEntry) :
    (((checkRateLimit (postMaxAttempts deps) (postWindowMs deps) store deps.now).1.allowed
        = false) →
      ∀ body, POST deps store body = some
        (post429 (checkRateLimit (postMaxAttempts deps) (postWindowMs deps) store
          deps.now).1 store)) ∧
    (∀ body out, POST deps store body = some out → out.status = 400 →
      out.store =
        (checkRateLimit (postMaxAttempts deps) (postWindowMs deps) store deps.now).2 ∧
      ∃ e, out.store = some e ∧
        e.count = (effectiveEntry (postWindowMs deps) store deps.now).count + 1) := by
  constructor
  · intro hdeny body
    unfold POST
    simp only [hdeny]
    rfl
  · intro body out hpost hstatus
    unfold POST at hpost
    by_cases hallow :
        (checkRateLimit (postMaxAttempts deps) (postWindowMs deps) store deps.now).1.allowed
        = true
    · simp only [hallow, if_true] at hpost
      have hstore := postInner_store deps _ body out hpost
      have hentry := checkRateLimit_allowed_store (postMaxAttempts deps)
        (postWindowMs deps) store deps.now hallow
      rw [hstore, hentry]
      exact ⟨rfl, _, rfl, rfl⟩
    · simp only [Bool.not_eq_true] at hallow
      simp only [hallow, Bool.false_eq_true, if_false] at hpost
      cases hpost
      simp [post429] at hstatus

/-- Production-posture dependencies: no dev mode, zero retries (the
configured default), clock at 0 with the generation finishing at 1000ms. -/
def prodDeps (attempts : Nat → Except String String) (sharp : SharpOracle) : PostDeps :=
  { isDevelopment := false, devSkipAI := false, now := 0, endTime := 1000,
    model := "gemini-2.5-flash-image-preview", maxRetries := 0, fuel := 1,
    attempts := attempts, js := plainJs, sharp := sharp }

/-- Sharp oracle whose metadata probe fails, making watermarking fail. -/
def failSharp : SharpOracle :=
  { b64decode := fun _ => [], b64encode := fun _ => "WM",
    metadata := fun _ => .error "Input buffer contains unsupported image format",
    compositePng := fun _ _ _ _ => .ok [] }

/-- A request body that passes every field check of the route, with the
given uploaded-image dimensions. -/
def validPreviewBody (w h : Nat) : PreviewRequestBody :=
  { image := some
      { id := "img-1", preview := "blob:p", size := 1000, type := "image/jpeg",
        dimensions := ⟨w, h⟩, uploadedAt := "2025-01-01", base64Data := "ORIG" },
    options := some { background := some "office", style := some "professional" } }

def c8Deps : PostDeps := prodDeps (fun _ => .ok "GENDATA") okSharp

def c8Out : PostOutcome :=
  { status := 400,
    body := { success := false,
              error := some "Missing required fields: image and options are required" },
    store := some ⟨1, 86400000, 0⟩, providerCalls := 0 }

/-- Witness for C8: an admitted request with an empty body fails field
validation with a 400 and the counter stays incremented. -/
theorem post_admission_before_validation_witness :
    POST c8Deps none (.ok {}) = some c8Out ∧ c8Out.status = 400 ∧
    c8Out.store =
      (checkRateLimit (postMaxAttempts c8Deps) (postWindowMs c8Deps) none c8Deps.now).2 ∧
    (∃ e, c8Out.store = some e ∧
      e.count = (effectiveEntry (postWindowMs c8Deps) none c8Deps.now).count + 1) := by
  have hpost : POST c8Deps none (.ok {}) = some c8Out := by decide
  have h := (post_admission_before_validation c8Deps none).2 (.ok {}) c8Out hpost rfl
  exact ⟨hpost, rfl, h.1, h.2⟩

def c1Deps : PostDeps := prodDeps (fun _ => .ok "GENDATA") failSharp

/-- C1.  When `addPreviewWatermark` fails, the route does not fail the
request: it logs, falls back to the unwatermarked processed image, and
returns 200 with that image as `imageData` — while still reporting
`metadata.watermarked = true`. -/
theorem preview_watermark_failure_returns_unwatermarked_200 :
    (addPreviewWatermark failSharp "GENDATA").success = false ∧
    (addPreviewWatermark failSharp "GENDATA").imageData = none ∧
    (POST c1Deps none (.ok (validPreviewBody 1024 1024))).map (fun o => o.status) =
      some 200 ∧
    (POST c1Deps none (.ok (validPreviewBody 1024 1024))).map (fun o => o.body.success) =
      some true ∧
    (POST c1Deps none (.ok (validPreviewBody 1024 1024))).map
      (fun o => o.body.imageData) = some (some "GENDATA") ∧
    (POST c1Deps none (.ok (validPreviewBody 1024 1024))).map
      (fun o => o.body.imageData) =
      some ((processResponse plainJs
        { success := true, imageData := some "GENDATA",
          cost := some PREVIEW_COST, generationTime := some 0 }
        (createMetrics 0 1000 "gemini-2.5-flash-image-preview" .preview)
        previewValidation).imageData) ∧
    (POST c1Deps none (.ok (validPreviewBody 1024 1024))).map
      (fun o => o.body.metadata.map fun m => m.watermarked) = some (some true) := by
  refine ⟨rfl, rfl, ?_, ?_, ?_, ?_, ?_⟩ <;> decide

def c2Deps : PostDeps := prodDeps (fun _ => .ok "GENDATA") okSharp

/-- C2.  The route never checks the uploaded image's dimensions: a 256×256
image (which `ImageUtils.validateImageForAI` rejects, as the route's own
test suite expects) sails through field validation and the provider is
invoked — one provider call and a 200, not a 400 with zero calls. -/
theorem preview_undersized_image_reaches_provider :
    (validateImageForAI 256 256 1000).isValid = false ∧
    "Image width must be at least 512px" ∈ (validateImageForAI 256 256 1000).errors ∧
    "Image height must be at least 512px" ∈ (validateImageForAI 256 256 1000).errors ∧
    (POST c2Deps none (.ok (validPreviewBody 256 256))).map (fun o => o.status) =
      some 200 ∧
    (POST c2Deps none (.ok (validPreviewBody 256 256))).map (fun o => o.providerCalls) =
      some 1 := by
  refine ⟨?_, ?_, ?_, ?_, ?_⟩ <;> decide

def c6Deps : PostDeps := prodDeps (fun _ => .error "quota exceeded") okSharp

/-- C6.  A provider failure with a quota message and retry ceiling 0 makes
the route answer 500 whose error text is the wrapped internal exception
verbatim (`Failed to generate image: quota exceeded`): `ErrorUtils` does
classify it retryable and has a distinct user-facing message for it, but
the route never applies that mapping, so the surfaced message is not
distinct from the internal exception text. -/
theorem preview_quota_error_surfaces_raw_text :
    (POST c6Deps none (.ok (validPreviewBody 1024 1024))).map (fun o => o.status) =
      some 500 ∧
    (POST c6Deps none (.ok (validPreviewBody 1024 1024))).map (fun o => o.body.error) =
      some (some "Failed to generate image: quota exceeded") ∧
    (POST c6Deps none (.ok (validPreviewBody 1024 1024))).map
      (fun o => o.providerCalls) = some 1 ∧
    (parseAIError (some "Failed to generate image: quota exceeded")).code =
      "QUOTA_EXCEEDED" ∧
    (parseAIError (some "Failed to generate image: quota exceeded")).retryable = true ∧
    getUserFriendlyMessage (some "Failed to generate image: quota exceeded") =
      "The AI service is temporarily unavailable. Please try again in a few minutes." ∧
    (POST c6Deps none (.ok (validPreviewBody 1024 1024))).map (fun o => o.body.error) ≠
      some (some (getUserFriendlyMessage
        (some "Failed to generate image: quota exceeded"))) := by
  refine ⟨?_, ?_, ?_, ?_, ?_, ?_, ?_⟩ <;> decide

end Portrait
